import Mathlib

/-!
Verification development for the Intelligent LLM Router repository.

The repository ships two source files: `src/models/schemas.py` (pydantic
request/response models, some with field validation) and
`src/models/database.py` (SQLAlchemy table declarations with column
defaults). This file embeds those data models shallowly in Lean: pydantic
construction becomes a total function returning `Option` (returning `none`
exactly when a declared field validator rejects the input), python floats
become rationals, datetimes become natural-number ticks. Behaviour that the
specification describes but whose implementation is absent from the sources
(the Decision Engine `route`, the Performance Tracker operations, the
Response Cache) is modelled from the specification text, marked as such in
the doc comments.
-/

namespace LLMRouter

/-! ## Data model embedded from src/models/schemas.py -/

/-- Embeds `ChatRequest` from schemas.py: `query`, `user_id`, optional
`context` defaulting to `None`, and `user_tier : Optional[str]` with
pydantic default `"free"`. -/
structure ChatRequest where
  query : String
  user_id : String
  context : Option String := none
  user_tier : Option String := some "free"
deriving DecidableEq

/-- Embeds pydantic construction of `ChatRequest` when the caller omits
`user_tier` (and `context`): the declared field defaults apply. No field of
`ChatRequest` carries a validator, so construction always succeeds. -/
def mkChatRequestDefaultTier (query user_id : String) (context : Option String) :
    ChatRequest :=
  { query := query, user_id := user_id, context := context }

/-- Embeds `QueryFeatures` from schemas.py. The four count fields are
declared as plain `int` in the source, with no `Field` constraint. -/
structure QueryFeatures where
  token_count : Int
  query_length : Int
  word_count : Int
  sentence_count : Int
  is_coding : Bool
  is_analytical : Bool
  is_creative : Bool
  has_code_block : Bool
  embedding_id : Option String := none
deriving DecidableEq

/-- Embeds pydantic construction of `QueryFeatures`. The source declares no
validator on any field, so pydantic accepts every assignment of the declared
types, including negative counts. -/
def mkQueryFeatures (tc ql wc sc : Int) (co an cr cb : Bool)
    (emb : Option String) : Option QueryFeatures :=
  some { token_count := tc, query_length := ql, word_count := wc,
         sentence_count := sc, is_coding := co, is_analytical := an,
         is_creative := cr, has_code_block := cb, embedding_id := emb }

/-- Embeds `ModelCandidate` from schemas.py. All four score fields are plain
`float` in the source, with no `Field` constraint; `metadata` is an optional
dictionary, embedded as an optional association list. -/
structure ModelCandidate where
  model_name : String
  quality_score : ℚ
  cost_score : ℚ
  latency_score : ℚ
  overall_score : ℚ
  metadata : Option (List (String × String)) := none
deriving DecidableEq

/-- Embeds pydantic construction of `ModelCandidate`. The source declares no
validator on any field, so every assignment of the declared types is
accepted, including scores outside `[0,1]`. -/
def mkModelCandidate (name : String) (q c l o : ℚ)
    (meta : Option (List (String × String))) : Option ModelCandidate :=
  some { model_name := name, quality_score := q, cost_score := c,
         latency_score := l, overall_score := o, metadata := meta }

/-- Embeds `RoutingDecision` from schemas.py: `confidence` carries
`Field(ge=0.0, le=1.0)`; `alternatives` defaults to `None` and `fallback`
to `False`. -/
structure RoutingDecision where
  selected_model : String
  reason : String
  confidence : ℚ
  alternatives : Option (List ModelCandidate) := none
  fallback : Bool := false
deriving DecidableEq

/-- Embeds pydantic construction of `RoutingDecision`: the `ge=0.0, le=1.0`
constraint on `confidence` rejects any value outside `[0,1]`. -/
def mkRoutingDecision (sel reason : String) (conf : ℚ)
    (alts : Option (List ModelCandidate)) (fb : Bool) :
    Option RoutingDecision :=
  if 0 ≤ conf ∧ conf ≤ 1 then
    some { selected_model := sel, reason := reason, confidence := conf,
           alternatives := alts, fallback := fb }
  else
    none

/-- Embeds `FeedbackRequest` from schemas.py: `rating : int` carries
`Field(ge=1, le=5)`; `comment` is optional. -/
structure FeedbackRequest where
  request_id : String
  rating : Int
  comment : Option String := none
deriving DecidableEq

/-- Embeds pydantic construction of `FeedbackRequest`: the `ge=1, le=5`
constraint rejects any rating outside `[1,5]` at the model boundary, before
the value reaches any downstream consumer. -/
def mkFeedbackRequest (rid : String) (rating : Int) (comment : Option String) :
    Option FeedbackRequest :=
  if 1 ≤ rating ∧ rating ≤ 5 then
    some { request_id := rid, rating := rating, comment := comment }
  else
    none

/-- Embeds `SimilarQuery` from schemas.py (the Similarity Oracle result
row). -/
structure SimilarQuery where
  query : String
  model_used : String
  success_rate : ℚ
  avg_latency_ms : ℚ
  similarity_score : ℚ
deriving DecidableEq

/-- Embeds `CacheEntry` from schemas.py: `hit_count : int = 0` defaults to
zero; `timestamp` (a datetime) is embedded as a natural-number tick. -/
structure CacheEntry where
  query_hash : String
  response : String
  model_used : String
  timestamp : Nat
  hit_count : Nat := 0
deriving DecidableEq

/-- Embeds pydantic construction of `CacheEntry` when the caller supplies
only the four required fields: the declared default sets `hit_count` to 0. -/
def mkCacheEntry (qh resp mu : String) (ts : Nat) : CacheEntry :=
  { query_hash := qh, response := resp, model_used := mu, timestamp := ts }

/-! ## Performance Tracker state embedded from src/models/database.py -/

/-- Embeds the `model_performance` table row of database.py for one model:
columns `total_requests` (default 0), `success_count` (default 0),
`total_latency_ms` (default 0.0), `total_cost` (default 0.0), `avg_rating`
(nullable), `last_updated`. -/
structure ModelPerformanceDB where
  total_requests : Nat := 0
  success_count : Nat := 0
  total_latency_ms : ℚ := 0
  total_cost : ℚ := 0
  avg_rating : Option ℚ := none
  last_updated : Nat := 0
deriving DecidableEq

/-- The freshly created row, with the column defaults declared in
database.py: zero requests, zero successes, zero cumulative latency and
cost, no rating yet. -/
def initialPerf : ModelPerformanceDB := {}

/-- One completed routed request reported to the tracker. -/
structure Outcome where
  latency_ms : ℚ
  cost : ℚ
  success : Bool
deriving DecidableEq

/-- Modelled from the spec: the repository sources declare only the
`model_performance` table, not the Tracker operation itself.
`recordOutcome(model_name, latency_ms, cost, success)` increments
`total_requests`, conditionally `success_count`, and adds to
`total_latency_ms` and `total_cost` (spec §4.2). -/
def recordOutcome (db : ModelPerformanceDB) (o : Outcome) : ModelPerformanceDB :=
  { db with
    total_requests := db.total_requests + 1,
    success_count := db.success_count + (if o.success then 1 else 0),
    total_latency_ms := db.total_latency_ms + o.latency_ms,
    total_cost := db.total_cost + o.cost }

/-- Applies a whole sequence of `recordOutcome` calls in order. -/
def applyOutcomes (db : ModelPerformanceDB) (os : List Outcome) :
    ModelPerformanceDB :=
  os.foldl recordOutcome db

/-! ## Decision Engine, modelled from the spec (§4.4)

The repository sources declare the input and output records of the Decision
Engine (`ModelCandidate`, `RoutingDecision`, `CacheEntry`, the
`model_performance` row) but not the engine itself. The definitions below
are modelled from the specification text; where the spec leaves a formula
to the implementer (the blend of static scores with tracker signal), a
simple deterministic choice is made and noted. -/

/-- Modelled from the spec: the fatal error taxonomy of §7; the only error
`route` may surface to its caller is `NoEligibleModelsError` (empty
candidate set). -/
inductive RouterError where
  | NoEligibleModelsError
deriving DecidableEq

/-- Modelled from the spec: user tiers gating objective weights (§4.4). -/
inductive UserTier where
  | free
  | pro
  | enterprise
deriving DecidableEq

/-- Per-tier objective weights. -/
structure TierWeights where
  quality : ℚ
  cost : ℚ
  latency : ℚ
deriving DecidableEq

/-- Modelled from the spec: the weight table of §4.4, enumerated there
explicitly per tier. -/
def tierWeights : UserTier → TierWeights
  | .free => { quality := 2/10, cost := 5/10, latency := 3/10 }
  | .pro => { quality := 5/10, cost := 2/10, latency := 3/10 }
  | .enterprise => { quality := 7/10, cost := 1/10, latency := 2/10 }

/-- Modelled from the spec: the point-in-time snapshot of §4.2.
`successRate` is `success_count / total_requests`, with 0 when
`total_requests = 0`; avgLatency and avgCost likewise read 0 when there is
no data. -/
structure Snapshot where
  successRate : ℚ
  avgLatency : ℚ
  avgCost : ℚ
  avgRating : Option ℚ
deriving DecidableEq

/-- Modelled from the spec: `snapshot(model_name)` of §4.2, derived from a
`model_performance` row. -/
def snapshot (db : ModelPerformanceDB) : Snapshot :=
  if db.total_requests = 0 then
    { successRate := 0, avgLatency := 0, avgCost := 0,
      avgRating := db.avg_rating }
  else
    { successRate := (db.success_count : ℚ) / (db.total_requests : ℚ),
      avgLatency := db.total_latency_ms / (db.total_requests : ℚ),
      avgCost := db.total_cost / (db.total_requests : ℚ),
      avgRating := db.avg_rating }

/-- Modelled from the spec: the avgRating-derived quality signal of §4.4
step 2, with the null rating defaulting to the neutral midpoint 3.0 (§4.2)
and the 1–5 rating scale mapped onto `[0,1]`. -/
def ratingSignal (s : Snapshot) : ℚ :=
  (s.avgRating.getD 3) / 5

/-- Modelled from the spec: the optional boost or penalty from the
Similarity Oracle result for one model (§4.4 step 2): a small signed term
derived from the historical success_rate of similar queries served by that
model; zero when the oracle returned nothing for the model (absent signal
degrades to neutral, §7). -/
def similarityBoost (similar : List SimilarQuery) (name : String) : ℚ :=
  match similar.find? (fun s => s.model_used == name) with
  | some s => (s.success_rate - 1/2) / 10
  | none => 0

/-- Modelled from the spec: the raw (pre-normalization) quality of a
candidate, blending the static per-model baseline carried by the candidate
with the tracker rating signal, plus the similarity boost (§4.4 step 2).
The blend is an even average — the exact mixing formula is an implementer
choice the spec leaves open (§9). -/
def rawQuality (tracker : String → ModelPerformanceDB)
    (similar : List SimilarQuery) (c : ModelCandidate) : ℚ :=
  (c.quality_score + ratingSignal (snapshot (tracker c.model_name))) / 2 +
    similarityBoost similar c.model_name

/-- Modelled from the spec: live cost signal from the tracked average cost,
mapped into `(0,1]` with higher cost scoring lower (higher is better after
normalization, §3). -/
def liveCostSignal (s : Snapshot) : ℚ :=
  1 / (1 + max s.avgCost 0)

/-- Modelled from the spec: live latency signal from the tracked average
latency in milliseconds, mapped into `(0,1]` with higher latency scoring
lower. -/
def liveLatencySignal (s : Snapshot) : ℚ :=
  1 / (1 + max s.avgLatency 0 / 1000)

/-- Modelled from the spec: raw cost score, the static published cost score
blended with the tracked live average when the tracker has data (§4.4
step 2); with no data the static score stands alone. -/
def rawCost (tracker : String → ModelPerformanceDB) (c : ModelCandidate) : ℚ :=
  let db := tracker c.model_name
  if db.total_requests = 0 then c.cost_score
  else (c.cost_score + liveCostSignal (snapshot db)) / 2

/-- Modelled from the spec: raw latency score, analogous to `rawCost`. -/
def rawLatency (tracker : String → ModelPerformanceDB) (c : ModelCandidate) : ℚ :=
  let db := tracker c.model_name
  if db.total_requests = 0 then c.latency_score
  else (c.latency_score + liveLatencySignal (snapshot db)) / 2

/-- Modelled from the spec: min-max normalization of one objective across
the candidate set; when all candidates are equal every one receives 0.5 to
avoid division by zero (§4.4 step 2). -/
def minMaxNormalize (vals : List ℚ) : List ℚ :=
  match vals with
  | [] => []
  | v :: vs =>
    let lo := vs.foldl min v
    let hi := vs.foldl max v
    if hi = lo then vals.map (fun _ => 1/2)
    else vals.map (fun x => (x - lo) / (hi - lo))

/-- Modelled from the spec: §4.4 steps 2–3. Each eligible candidate gets
normalized quality, cost and latency scores and an
`overall_score = Σ tier_weight[objective] × objective_score`. -/
def scoreCandidates (tracker : String → ModelPerformanceDB)
    (similar : List SimilarQuery) (tier : UserTier)
    (candidates : List ModelCandidate) : List ModelCandidate :=
  let qs := minMaxNormalize (candidates.map (rawQuality tracker similar))
  let cs := minMaxNormalize (candidates.map (rawCost tracker))
  let ls := minMaxNormalize (candidates.map (rawLatency tracker))
  let w := tierWeights tier
  (candidates.zip (qs.zip (cs.zip ls))).map fun p =>
    { p.1 with
      quality_score := p.2.1,
      cost_score := p.2.2.1,
      latency_score := p.2.2.2,
      overall_score := w.quality * p.2.1 + w.cost * p.2.2.1 +
        w.latency * p.2.2.2 }

/-- Modelled from the spec: one step of the §4.4 step 4 selection — a later
candidate displaces the running best only when its score is strictly
greater, so the first listed candidate wins ties. -/
def betterOf (acc : Option ModelCandidate) (c : ModelCandidate) :
    Option ModelCandidate :=
  match acc with
  | none => some c
  | some b => if b.overall_score < c.overall_score then some c else some b

/-- Modelled from the spec: §4.4 step 4 — select the candidate with the
maximum `overall_score`, ties broken by candidate declaration order (the
first listed wins). -/
def argmaxFirst (l : List ModelCandidate) : Option ModelCandidate :=
  l.foldl betterOf none

/-- Modelled from the spec: §4.4 step 5 — confidence is the normalized
margin `(winner − runnerUp) / winner` clamped to `[0,1]`; with no
runner-up, confidence is 1. -/
def confidenceOf (winner : ModelCandidate) (rest : List ModelCandidate) : ℚ :=
  match argmaxFirst rest with
  | none => 1
  | some ru =>
    min 1 (max 0 ((winner.overall_score - ru.overall_score) /
      winner.overall_score))

/-- Modelled from the spec: engine configuration — the minimum acceptable
quality threshold and the designated per-tier fallback model of §4.4
step 6. -/
structure EngineConfig where
  qualityThreshold : ℚ
  fallbackModel : UserTier → String

/-- Modelled from the spec: `lookup(fingerprint)` of §4.3 restricted to its
read-only part — find the cache entry stored under the fingerprint. -/
def lookupCache (cache : List CacheEntry) (fp : String) : Option CacheEntry :=
  cache.find? (fun e => e.query_hash == fp)

/-- Modelled from the spec: the Decision Engine algorithm of §4.4,
instrumented with a scoring-call counter (§8 asks a cache hit to leave a
scoring counter at zero). Returns the decision together with the number of
candidates scored. The empty candidate set fails with
`NoEligibleModelsError` (inputs require ≥ 1 candidate; §7 makes this the
sole caller-visible error); otherwise a cache hit short-circuits with
reason `cache_hit` and confidence 1 before any scoring; on a miss the
candidates are scored, the all-below-threshold case returns the designated
fallback with reason `low_confidence_fallback`, and otherwise the first
maximal candidate wins with confidence from the runner-up margin. -/
def routeInstr (cfg : EngineConfig) (cache : List CacheEntry)
    (tracker : String → ModelPerformanceDB) (similar : List SimilarQuery)
    (fp : String) (tier : UserTier) (candidates : List ModelCandidate) :
    Except RouterError (RoutingDecision × Nat) :=
  if candidates.isEmpty then
    .error .NoEligibleModelsError
  else
    match lookupCache cache fp with
    | some entry =>
      .ok ({ selected_model := entry.model_used, reason := "cache_hit",
             confidence := 1, alternatives := none, fallback := false }, 0)
    | none =>
      let scored := scoreCandidates tracker similar tier candidates
      if scored.all (fun c => c.quality_score < cfg.qualityThreshold) then
        .ok ({ selected_model := cfg.fallbackModel tier,
               reason := "low_confidence_fallback", confidence := 0,
               alternatives := none, fallback := true }, scored.length)
      else
        match argmaxFirst scored with
        | none => .error .NoEligibleModelsError
        | some winner =>
          .ok ({ selected_model := winner.model_name,
                 reason := "highest_overall_score",
                 confidence := confidenceOf winner (scored.erase winner),
                 alternatives := some (scored.erase winner),
                 fallback := false }, scored.length)

/-- Modelled from the spec: `route` of §6, the sole entry point — the
decision without the instrumentation counter. -/
def route (cfg : EngineConfig) (cache : List CacheEntry)
    (tracker : String → ModelPerformanceDB) (similar : List SimilarQuery)
    (fp : String) (tier : UserTier) (candidates : List ModelCandidate) :
    Except RouterError RoutingDecision :=
  (routeInstr cfg cache tracker similar fp tier candidates).map Prod.fst

/-! ## Helper lemmas -/

/-- The tracker invariant is preserved by a single `recordOutcome` call. -/
theorem recordOutcome_preserves_inv (db : ModelPerformanceDB) (o : Outcome)
    (h : db.success_count ≤ db.total_requests) :
    (recordOutcome db o).success_count ≤ (recordOutcome db o).total_requests := by
  unfold recordOutcome
  dsimp only
  split <;> omega

/-- The tracker invariant is preserved by any sequence of `recordOutcome`
calls. -/
theorem applyOutcomes_preserves_inv (os : List Outcome) :
    ∀ db : ModelPerformanceDB, db.success_count ≤ db.total_requests →
      (applyOutcomes db os).success_count ≤ (applyOutcomes db os).total_requests := by
  induction os with
  | nil => intro db h; exact h
  | cons o os ih =>
    intro db h
    exact ih (recordOutcome db o) (recordOutcome_preserves_inv db o h)

/-- A later candidate whose score does not exceed the current head never
changes the selection. -/
theorem argmaxFirst_drop_dominated (a b : ModelCandidate)
    (l : List ModelCandidate) (h : b.overall_score ≤ a.overall_score) :
    argmaxFirst (a :: b :: l) = argmaxFirst (a :: l) := by
  unfold argmaxFirst
  rw [List.foldl_cons, List.foldl_cons, List.foldl_cons]
  congr 1
  show betterOf (some a) b = some a
  unfold betterOf
  exact if_neg (not_lt.mpr h)

/-! ## Claim theorems -/

/-- C1: a `route` call with an empty candidate set always fails with
`NoEligibleModelsError` and never returns a `RoutingDecision`, whatever the
configuration, cache state, tracker state, similarity signal, fingerprint
or tier — no default model is substituted. -/
theorem route_empty_candidates_fatal (cfg : EngineConfig)
    (cache : List CacheEntry) (tracker : String → ModelPerformanceDB)
    (similar : List SimilarQuery) (fp : String) (tier : UserTier) :
    route cfg cache tracker similar fp tier [] =
      .error .NoEligibleModelsError := rfl

/-- C2: with the Performance Tracker state, cache state and candidate set
fixed, `route` is a pure function of its arguments, so two calls with
identical inputs return identical results (no hidden randomness); and ties
in `overall_score` are broken by candidate declaration order — a
later candidate with a tied score never displaces an earlier one in the
step-4 selection. -/
theorem route_deterministic :
    (∀ (cfg : EngineConfig) (cache : List CacheEntry)
        (tracker : String → ModelPerformanceDB) (similar : List SimilarQuery)
        (fp : String) (tier : UserTier) (candidates : List ModelCandidate),
        route cfg cache tracker similar fp tier candidates =
          route cfg cache tracker similar fp tier candidates) ∧
    (∀ (a b : ModelCandidate) (l : List ModelCandidate),
        a.overall_score = b.overall_score →
        argmaxFirst (a :: b :: l) = argmaxFirst (a :: l)) :=
  ⟨fun _ _ _ _ _ _ _ => rfl,
   fun a b l h => argmaxFirst_drop_dominated a b l (le_of_eq h.symm)⟩

/-- Witness for C2 at concrete inputs: two candidates tied at overall score
one half; the selection over both equals the selection with the later one
removed, so the first listed wins. -/
theorem route_deterministic_witness :
    argmaxFirst
      [{ model_name := "a", quality_score := 0, cost_score := 0,
         latency_score := 0, overall_score := 1/2 },
       { model_name := "b", quality_score := 0, cost_score := 0,
         latency_score := 0, overall_score := 1/2 }] =
      argmaxFirst
        [{ model_name := "a", quality_score := 0, cost_score := 0,
           latency_score := 0, overall_score := 1/2 }] :=
  route_deterministic.2
    { model_name := "a", quality_score := 0, cost_score := 0,
      latency_score := 0, overall_score := 1/2 }
    { model_name := "b", quality_score := 0, cost_score := 0,
      latency_score := 0, overall_score := 1/2 } [] rfl

/-- C3: whenever the cache holds an entry under the computed fingerprint,
`route` (given the `≥ 1` candidates its input contract requires)
short-circuits: it returns that entry as `selected_model` with
`fallback = false`, `reason = "cache_hit"`, `confidence = 1`, and the
instrumented engine reports zero scoring calls. -/
theorem route_cache_hit_short_circuit (cfg : EngineConfig)
    (cache : List CacheEntry) (tracker : String → ModelPerformanceDB)
    (similar : List SimilarQuery) (fp : String) (tier : UserTier)
    (candidates : List ModelCandidate) (entry : CacheEntry)
    (hne : candidates ≠ [])
    (hhit : lookupCache cache fp = some entry) :
    routeInstr cfg cache tracker similar fp tier candidates =
      .ok ({ selected_model := entry.model_used, reason := "cache_hit",
             confidence := 1, alternatives := none, fallback := false }, 0) ∧
    route cfg cache tracker similar fp tier candidates =
      .ok { selected_model := entry.model_used, reason := "cache_hit",
            confidence := 1, alternatives := none, fallback := false } := by
  match candidates, hne with
  | c :: cs, _ =>
    have h1 : routeInstr cfg cache tracker similar fp tier (c :: cs) =
        .ok ({ selected_model := entry.model_used, reason := "cache_hit",
               confidence := 1, alternatives := none, fallback := false }, 0) := by
      unfold routeInstr
      rw [if_neg (by simp), hhit]
    exact ⟨h1, by unfold route; rw [h1]; rfl⟩

/-- Witness for C3 at concrete inputs: a one-entry cache holding
fingerprint fp1 with model modelA, one candidate, free tier. -/
theorem route_cache_hit_short_circuit_witness :
    routeInstr { qualityThreshold := 1/10, fallbackModel := fun _ => "fb" }
        [mkCacheEntry "fp1" "R" "modelA" 0] (fun _ => initialPerf) [] "fp1"
        .free
        [{ model_name := "m1", quality_score := 1, cost_score := 1,
           latency_score := 1, overall_score := 0 }] =
      .ok ({ selected_model := "modelA", reason := "cache_hit",
             confidence := 1, alternatives := none, fallback := false }, 0) ∧
    route { qualityThreshold := 1/10, fallbackModel := fun _ => "fb" }
        [mkCacheEntry "fp1" "R" "modelA" 0] (fun _ => initialPerf) [] "fp1"
        .free
        [{ model_name := "m1", quality_score := 1, cost_score := 1,
           latency_score := 1, overall_score := 0 }] =
      .ok { selected_model := "modelA", reason := "cache_hit",
            confidence := 1, alternatives := none, fallback := false } :=
  route_cache_hit_short_circuit
    { qualityThreshold := 1/10, fallbackModel := fun _ => "fb" }
    [mkCacheEntry "fp1" "R" "modelA" 0] (fun _ => initialPerf) [] "fp1" .free
    [{ model_name := "m1", quality_score := 1, cost_score := 1,
       latency_score := 1, overall_score := 0 }]
    (mkCacheEntry "fp1" "R" "modelA" 0) (by simp) rfl

/-- C4: constructing a `FeedbackRequest` with a rating in `[1,5]` succeeds
with the given fields, and a rating outside `[1,5]` is rejected at the
model boundary — the constructor returns nothing, so the value never
reaches any downstream consumer such as the Performance Tracker. -/
theorem feedback_rating_validated (rid : String) (rating : Int)
    (comment : Option String) :
    ((1 ≤ rating ∧ rating ≤ 5) →
      mkFeedbackRequest rid rating comment =
        some { request_id := rid, rating := rating, comment := comment }) ∧
    (¬(1 ≤ rating ∧ rating ≤ 5) →
      mkFeedbackRequest rid rating comment = none) := by
  constructor
  · intro h
    unfold mkFeedbackRequest
    exact if_pos h
  · intro h
    unfold mkFeedbackRequest
    exact if_neg h

/-- Witness for C4 at concrete inputs: rating 4 is accepted, rating 6 is
rejected. -/
theorem feedback_rating_validated_witness :
    mkFeedbackRequest "r1" 4 none =
      some { request_id := "r1", rating := 4, comment := none } ∧
    mkFeedbackRequest "r2" 6 none = none :=
  ⟨(feedback_rating_validated "r1" 4 none).1 (by decide),
   (feedback_rating_validated "r2" 6 none).2 (by decide)⟩

/-- C5: every successfully constructed `RoutingDecision` has confidence in
`[0,1]`, and constructing one with confidence below 0 or above 1 fails
validation. -/
theorem routingDecision_confidence_bounds (sel reason : String) (conf : ℚ)
    (alts : Option (List ModelCandidate)) (fb : Bool) :
    (∀ d : RoutingDecision,
        mkRoutingDecision sel reason conf alts fb = some d →
          0 ≤ d.confidence ∧ d.confidence ≤ 1) ∧
    ((conf < 0 ∨ 1 < conf) → mkRoutingDecision sel reason conf alts fb = none) := by
  constructor
  · intro d hd
    unfold mkRoutingDecision at hd
    split at hd
    · next h =>
      simp only [Option.some.injEq] at hd
      rw [← hd]
      exact h
    · exact absurd hd (by simp)
  · intro hout
    unfold mkRoutingDecision
    rw [if_neg]
    rintro ⟨h0, h1⟩
    rcases hout with h | h
    · exact absurd h0 (not_le.mpr h)
    · exact absurd h1 (not_le.mpr h)

/-- Witness for C5 at concrete inputs: confidence one half is accepted and
lies in the bounds; confidence 2 is rejected. -/
theorem routingDecision_confidence_bounds_witness :
    (0 ≤ (1/2 : ℚ) ∧ (1/2 : ℚ) ≤ 1) ∧
    mkRoutingDecision "m" "r" 2 none false = none :=
  ⟨(routingDecision_confidence_bounds "m" "r" (1/2) none false).1
      { selected_model := "m", reason := "r", confidence := 1/2,
        alternatives := none, fallback := false }
      (by unfold mkRoutingDecision; rw [if_pos]; constructor <;> norm_num),
   (routingDecision_confidence_bounds "m" "r" 2 none false).2
      (Or.inr (by norm_num))⟩

/-- C6 counterexample: `QueryFeatures` construction with a negative
`token_count` (and negative would-be counts in general) is not rejected —
the source declares the count fields as plain `int` with no validator, so
the resulting value has a negative `token_count`, contrary to the claim. -/
theorem queryFeatures_negative_accepted :
    mkQueryFeatures (-5) 3 2 1 true false false true none =
      some { token_count := -5, query_length := 3, word_count := 2,
             sentence_count := 1, is_coding := true, is_analytical := false,
             is_creative := false, has_code_block := true,
             embedding_id := none } ∧
    (-5 : Int) < 0 := ⟨rfl, by decide⟩

/-- C6 amended: `QueryFeatures` construction performs no range validation —
every assignment of the declared field types is accepted and stored
verbatim, negative counts included. -/
theorem queryFeatures_no_validation (tc ql wc sc : Int) (co an cr cb : Bool)
    (emb : Option String) :
    mkQueryFeatures tc ql wc sc co an cr cb emb =
      some { token_count := tc, query_length := ql, word_count := wc,
             sentence_count := sc, is_coding := co, is_analytical := an,
             is_creative := cr, has_code_block := cb,
             embedding_id := emb } := rfl

/-- C7 counterexample: `ModelCandidate` construction with
`quality_score = 2`, `cost_score = -1` and `latency_score = 3/2` — all
outside `[0,1]` — is not rejected: the source declares the score fields as
plain `float` with no validator. -/
theorem modelCandidate_out_of_range_accepted :
    mkModelCandidate "m" 2 (-1) (3/2) 0 none =
      some { model_name := "m", quality_score := 2, cost_score := -1,
             latency_score := 3/2, overall_score := 0, metadata := none } ∧
    ¬((2 : ℚ) ≤ 1) := ⟨rfl, by norm_num⟩

/-- C7 amended: `ModelCandidate` construction performs no range
validation — every assignment of the declared field types is accepted and
stored verbatim, scores outside `[0,1]` included. -/
theorem modelCandidate_no_validation (name : String) (q c l o : ℚ)
    (meta : Option (List (String × String))) :
    mkModelCandidate name q c l o meta =
      some { model_name := name, quality_score := q, cost_score := c,
             latency_score := l, overall_score := o, metadata := meta } := rfl

/-- C8: starting from the freshly created `model_performance` row (zero
requests, zero successes per the declared column defaults), after any
sequence of `recordOutcome` calls the invariant
`success_count ≤ total_requests` holds — and since every prefix of a
sequence is itself a sequence, it holds after every individual call. -/
theorem tracker_success_le_total (os : List Outcome) :
    (applyOutcomes initialPerf os).success_count ≤
      (applyOutcomes initialPerf os).total_requests :=
  applyOutcomes_preserves_inv os initialPerf (Nat.le_refl 0)

/-- C9: a `ChatRequest` constructed without an explicit `user_tier` gets
the declared pydantic default, the free tier. -/
theorem chatRequest_default_tier (q uid : String) (ctx : Option String) :
    (mkChatRequestDefaultTier q uid ctx).user_tier = some "free" := rfl

/-- C10: a `CacheEntry` constructed without an explicit `hit_count` gets
the declared default of zero hits. -/
theorem cacheEntry_default_hit_count (qh resp mu : String) (ts : Nat) :
    (mkCacheEntry qh resp mu ts).hit_count = 0 := rfl

end LLMRouter
